import Mathlib

/-!
Verification of the atoma-node telemetry pipeline against its specification.

The definitions below are a shallow embedding of the Rust sources:
* `atoma-state/src/lib.rs` — `build_query_with_in` over a model of
  `sqlx::QueryBuilder` (SQL text plus the bound argument list);
* `atoma-p2p/src/config.rs` — `validate_country_code` over a model of the
  `isocountry` crate's ISO 3166-1 alpha-2 table;
* `atoma-p2p/src/metrics.rs` — the metrics data model, the Prometheus
  query/merge logic, and the system/GPU collection pipeline;
* `atoma-p2p/src/types.rs` — canonical CBOR serialization of `NodeMessage`
  together with a full blake3 implementation.

Machine integers are modelled as `Nat` with explicit `% 2 ^ w` where the
Rust code can wrap; Rust panics (integer division by zero) are modelled by
`Option`; Rust `Result` is modelled by `Except`.  IEEE-754 floating point
values are modelled by their bit patterns (a `Nat` below `2 ^ 32` or
`2 ^ 64`); parsing and integer casts are defined on those bit patterns with
exact rational arithmetic and round-to-nearest-even.
-/

/-- Rust `u64` division: panics (modelled as `none`) when the divisor is
zero, otherwise truncating division. -/
def rustDivU64 (a b : Nat) : Option Nat :=
  if b = 0 then none else some (a / b)

/-- Rust `u64` addition in release mode: wraps modulo `2 ^ 64`. -/
def wrapAdd64 (a b : Nat) : Nat :=
  (a + b) % 2 ^ 64

/-! ## atoma-state: `build_query_with_in` (src/atoma-state/src/lib.rs) -/

/-- Model of `sqlx::QueryBuilder<Postgres>`: the accumulated SQL text and
the list of bound arguments.  Postgres placeholders are `$1`, `$2`, …,
numbered by the count of arguments bound so far. -/
structure QueryBuilder (α : Type) where
  sql : String
  arguments : List α
  deriving Repr, DecidableEq

/-- `QueryBuilder::push`: append raw SQL text. -/
def QueryBuilder.push {α : Type} (b : QueryBuilder α) (s : String) : QueryBuilder α :=
  { b with sql := b.sql ++ s }

/-- `QueryBuilder::push_bind`: bind one argument and append its `$n`
placeholder, where `n` is the argument count after binding. -/
def QueryBuilder.push_bind {α : Type} (b : QueryBuilder α) (v : α) : QueryBuilder α :=
  { sql := b.sql ++ "$" ++ toString (b.arguments.length + 1),
    arguments := b.arguments ++ [v] }

/-- The `Separated` loop of `build_query_with_in`: `separated.push_bind`
writes the separator before every element except the first (`pushSep` is
the `Separated` state recording whether a separator is due). -/
def sepPushBinds {α : Type} (sep : String) (b : QueryBuilder α) (pushSep : Bool) :
    List α → QueryBuilder α
  | [] => b
  | v :: rest =>
      sepPushBinds sep ((if pushSep then b.push sep else b).push_bind v) true rest

/-- `build_query_with_in` from `atoma-state/src/lib.rs`: builds
`base_query` plus either `" WHERE 1=0"` (empty `values`) or a
`WHERE column IN ($1, …, $n)` clause with one bound placeholder per value,
followed by `" AND "` plus the additional conditions when provided. -/
def build_query_with_in {α : Type} (base_query column : String) (values : List α)
    (additional_conditions : Option String) : QueryBuilder α :=
  let builder : QueryBuilder α := { sql := base_query, arguments := [] }
  if values.isEmpty then builder.push " WHERE 1=0"
  else
    let builder := ((builder.push " WHERE ").push column).push " IN ("
    let builder := sepPushBinds ", " builder false values
    let builder := builder.push ")"
    match additional_conditions with
    | some conditions => (builder.push " AND ").push conditions
    | none => builder

/-- Closed form for the text written by the separated loop after the first
placeholder: `", $(k+1)"`, `", $(k+2)"`, … for `n` further values. -/
def morePlaceholders (k : Nat) : Nat → String
  | 0 => ""
  | Nat.succ n => ", " ++ ("$" ++ toString (k + 1)) ++ morePlaceholders (k + 1) n

/-- Closed form for the full placeholder list `"$(k+1), …, $(k+n)"`. -/
def placeholders (k : Nat) : Nat → String
  | 0 => ""
  | Nat.succ n => "$" ++ toString (k + 1) ++ morePlaceholders (k + 1) n

/-- The separated loop, once one element has been written, appends exactly
the `morePlaceholders` text and binds the values in order. -/
theorem sepPushBinds_true_spec {α : Type} (vs : List α) (b : QueryBuilder α) :
    (sepPushBinds ", " b true vs).sql
        = b.sql ++ morePlaceholders b.arguments.length vs.length
      ∧ (sepPushBinds ", " b true vs).arguments = b.arguments ++ vs := by
  induction vs generalizing b with
  | nil =>
      simp [sepPushBinds, morePlaceholders]
  | cons v rest ih =>
      have h := ih ((b.push ", ").push_bind v)
      constructor
      · rw [sepPushBinds, if_pos rfl, h.1]
        simp only [QueryBuilder.push, QueryBuilder.push_bind, morePlaceholders,
          List.length_append, List.length_singleton, String.append_assoc]
      · rw [sepPushBinds, if_pos rfl, h.2]
        simp [QueryBuilder.push, QueryBuilder.push_bind]

/-- The separated loop starting with no pending separator writes the full
placeholder list and binds the values in order. -/
theorem sepPushBinds_false_spec {α : Type} (vs : List α) (b : QueryBuilder α) :
    (sepPushBinds ", " b false vs).sql
        = b.sql ++ placeholders b.arguments.length vs.length
      ∧ (sepPushBinds ", " b false vs).arguments = b.arguments ++ vs := by
  cases vs with
  | nil => simp [sepPushBinds, placeholders]
  | cons v rest =>
      have h := sepPushBinds_true_spec rest (b.push_bind v)
      constructor
      · rw [sepPushBinds, if_neg (by simp), h.1]
        simp [QueryBuilder.push_bind, placeholders, String.append_assoc]
      · rw [sepPushBinds, if_neg (by simp), h.2]
        simp [QueryBuilder.push_bind]

/-! ## atoma-p2p config: `validate_country_code` (src/atoma-p2p/src/config.rs) -/

/-- Model of `validator::ValidationError` (only the error code matters). -/
structure ValidationError where
  code : String
  deriving Repr, DecidableEq

/-- The ISO 3166-1 alpha-2 officially assigned country codes, as matched by
`isocountry::CountryCode::for_alpha2` (external crate data). -/
def ISO_3166_1_ALPHA2 : List String :=
  ["AD", "AE", "AF", "AG", "AI", "AL", "AM", "AO", "AQ", "AR", "AS", "AT",
   "AU", "AW", "AX", "AZ", "BA", "BB", "BD", "BE", "BF", "BG", "BH", "BI",
   "BJ", "BL", "BM", "BN", "BO", "BQ", "BR", "BS", "BT", "BV", "BW", "BY",
   "BZ", "CA", "CC", "CD", "CF", "CG", "CH", "CI", "CK", "CL", "CM", "CN",
   "CO", "CR", "CU", "CV", "CW", "CX", "CY", "CZ", "DE", "DJ", "DK", "DM",
   "DO", "DZ", "EC", "EE", "EG", "EH", "ER", "ES", "ET", "FI", "FJ", "FK",
   "FM", "FO", "FR", "GA", "GB", "GD", "GE", "GF", "GG", "GH", "GI", "GL",
   "GM", "GN", "GP", "GQ", "GR", "GS", "GT", "GU", "GW", "GY", "HK", "HM",
   "HN", "HR", "HT", "HU", "ID", "IE", "IL", "IM", "IN", "IO", "IQ", "IR",
   "IS", "IT", "JE", "JM", "JO", "JP", "KE", "KG", "KH", "KI", "KM", "KN",
   "KP", "KR", "KW", "KY", "KZ", "LA", "LB", "LC", "LI", "LK", "LR", "LS",
   "LT", "LU", "LV", "LY", "MA", "MC", "MD", "ME", "MF", "MG", "MH", "MK",
   "ML", "MM", "MN", "MO", "MP", "MQ", "MR", "MS", "MT", "MU", "MV", "MW",
   "MX", "MY", "MZ", "NA", "NC", "NE", "NF", "NG", "NI", "NL", "NO", "NP",
   "NR", "NU", "NZ", "OM", "PA", "PE", "PF", "PG", "PH", "PK", "PL", "PM",
   "PN", "PR", "PS", "PT", "PW", "PY", "QA", "RE", "RO", "RS", "RU", "RW",
   "SA", "SB", "SC", "SD", "SE", "SG", "SH", "SI", "SJ", "SK", "SL", "SM",
   "SN", "SO", "SR", "SS", "ST", "SV", "SX", "SY", "SZ", "TC", "TD", "TF",
   "TG", "TH", "TJ", "TK", "TL", "TM", "TN", "TO", "TR", "TT", "TV", "TW",
   "TZ", "UA", "UG", "UM", "US", "UY", "UZ", "VA", "VC", "VE", "VG", "VI",
   "VN", "VU", "WF", "WS", "YE", "YT", "ZA", "ZM", "ZW"]

/-- `validate_country_code` from `atoma-p2p/src/config.rs`: succeeds exactly
when `isocountry::CountryCode::for_alpha2` finds the code in the ISO
3166-1 alpha-2 table, and otherwise reports "Country code is invalid". -/
def validate_country_code (country : String) : Except ValidationError Unit :=
  if ISO_3166_1_ALPHA2.contains country then Except.ok ()
  else Except.error ⟨"Country code is invalid"⟩

/-! ## atoma-p2p metrics: data model (src/atoma-p2p/src/metrics.rs)

Floating point fields (`f32`/`f64` in the source) are stored as their IEEE
bit patterns: a `Nat` below `2 ^ 32` (for `cpu_usage`) or `2 ^ 64` (for the
`f64` statistics). -/

/-- `GpuMetrics` from `atoma-p2p/src/metrics.rs`, fields in declaration
order.  The six latency fields are `f64` bit patterns. -/
structure GpuMetrics where
  memory_used : Nat
  memory_total : Nat
  memory_free : Nat
  percentage_time_read_write : Nat
  percentage_time_gpu_execution : Nat
  temperature : Nat
  power_usage : Nat
  max_power_limit : Nat
  default_power_limit : Nat
  max_temperature : Nat
  energy_consumption : Nat
  chat_completion_latency : Nat
  time_to_first_token : Nat
  inter_token_generation_time : Nat
  decoding_time : Nat
  image_generation_latency : Nat
  text_embeddings_latency : Nat
  total_requests : Nat
  failed_requests : Nat
  deriving Repr, DecidableEq

/-- `GpuMetrics::default()`: every numeric field zero (`0.0f64` has bit
pattern `0`). -/
def GpuMetrics.default : GpuMetrics :=
  ⟨0, 0, 0, 0, 0, 0, 0, 0, 0, 0, 0, 0, 0, 0, 0, 0, 0, 0, 0⟩

/-- `NodeMetrics` from `atoma-p2p/src/metrics.rs`, fields in declaration
order.  `cpu_usage` is an `f32` bit pattern. -/
structure NodeMetrics where
  cpu_usage : Nat
  cpu_frequency : Nat
  ram_used : Nat
  ram_total : Nat
  ram_swap_used : Nat
  ram_swap_total : Nat
  num_cpus : Nat
  network_rx : Nat
  network_tx : Nat
  num_gpus : Nat
  gpus : List GpuMetrics
  deriving Repr, DecidableEq

/-- `PrometheusResult`: a `(timestamp, value-string)` pair. -/
structure PrometheusResult where
  value : Int × String
  deriving Repr, DecidableEq

/-- `PrometheusData`: the result list of a query response. -/
structure PrometheusData where
  result : List PrometheusResult
  deriving Repr, DecidableEq

/-- `PrometheusResponse`: status plus data envelope. -/
structure PrometheusResponse where
  status : String
  data : PrometheusData
  deriving Repr, DecidableEq

/-- `MetricsResponse` from `atoma-p2p/src/metrics.rs`: the six `f64`
statistics (bit patterns) and the two `u64` counters. -/
structure MetricsResponse where
  chat_latency : Nat
  first_token_time : Nat
  inter_token_time : Nat
  decoding_time : Nat
  image_gen_latency : Nat
  text_emb_latency : Nat
  total_requests : Nat
  failed_requests : Nat
  deriving Repr, DecidableEq

/-- `MetricsResponse::default()`: all fields zero. -/
def MetricsResponse.default : MetricsResponse :=
  ⟨0, 0, 0, 0, 0, 0, 0, 0⟩

/-- Model of `nvml_wrapper::error::NvmlError` (only its identity matters). -/
structure NvmlErr where
  code : Nat
  deriving Repr, DecidableEq

/-- Model of `reqwest::Error` (request failure or timeout). -/
structure ReqwestErr where
  code : Nat
  deriving Repr, DecidableEq

/-- `NodeMetricsError` from `atoma-p2p/src/metrics.rs`. -/
inductive NodeMetricsError where
  | NvmlError (e : NvmlErr)
  | TryFromIntError
  | PrometheusMetricsError
  | PrometheusError (msg : String)
  | RequestError (e : ReqwestErr)
  deriving Repr, DecidableEq

/-! ## IEEE-754 binary64 as bit patterns

`f64` values appear in the source only through `str::parse::<f64>()` and the
saturating cast `as u64`; both are modelled exactly on bit patterns, using
exact rational arithmetic and round-to-nearest-even (the rounding Rust's
decimal-to-float conversion is specified to perform). -/

/-- Positive infinity bit pattern of binary64. -/
def F64_INF : Nat := 0x7FF0000000000000

/-- The quiet NaN produced by parsing "nan". -/
def F64_QNAN : Nat := 0x7FF8000000000000

/-- Round a nonnegative fraction `num / den` to the nearest integer, ties
to even. -/
def roundHalfEvenPos (num den : Nat) : Nat :=
  let q := num / den
  let r := num % den
  if 2 * r < den then q
  else if den < 2 * r then q + 1
  else if q % 2 = 0 then q else q + 1

/-- Round a nonnegative rational to the nearest natural, ties to even. -/
def rheNat (x : ℚ) : Nat := roundHalfEvenPos x.num.toNat x.den

/-- Floor of a nonnegative rational as a natural number. -/
def ratNatFloor (q : ℚ) : Nat := q.num.toNat / q.den

/-- The binary exponent `e` with `2 ^ e ≤ q < 2 ^ (e + 1)` of a positive
rational. -/
def ratLog2 (q : ℚ) : Int :=
  if 1 ≤ q then (Nat.log2 (ratNatFloor q) : Int)
  else
    let k := Nat.log2 (ratNatFloor q⁻¹)
    if q * 2 ^ k = 1 then -(k : Int) else -(k : Int) - 1

/-- Exponent-and-mantissa bits of the binary64 nearest (ties to even) to a
positive rational: subnormals, normals, and overflow to infinity. -/
def f64BitsOfPosRat (q : ℚ) : Nat :=
  let e : Int := ratLog2 q
  if e < -1022 then
    let m := rheNat (q * 2 ^ (1074 : Nat))
    if 2 ^ 52 ≤ m then 2 ^ 52 else m
  else
    let m := rheNat (q * (2 : ℚ) ^ (52 - e))
    let em : Int × Nat := if m = 2 ^ 53 then (e + 1, 2 ^ 52) else (e, m)
    if 1023 < em.1 then F64_INF
    else (em.1 + 1023).toNat * 2 ^ 52 + (em.2 - 2 ^ 52)

/-- Binary64 bit pattern of a signed rational magnitude. -/
def f64BitsOfRat (neg : Bool) (mag : ℚ) : Nat :=
  let signBit := if neg then 2 ^ 63 else 0
  if mag = 0 then signBit else signBit + f64BitsOfPosRat mag

/-- Numeric value of a decimal digit string. -/
def digitsVal (cs : List Char) : Nat :=
  cs.foldl (fun a c => 10 * a + (c.toNat - 48)) 0

/-- Exponent suffix of a float literal (after `e`/`E`): an optional sign
followed by at least one digit, consuming the whole remainder. -/
def parseDecExponent (cs : List Char) : Option Int :=
  let sgncs : Int × List Char :=
    match cs with
    | '+' :: t => (1, t)
    | '-' :: t => (-1, t)
    | t => (1, t)
  if sgncs.2 ≠ [] ∧ sgncs.2.all Char.isDigit then
    some (sgncs.1 * (digitsVal sgncs.2 : Int))
  else none

/-- `str::parse::<f64>()`: Rust's grammar (optional sign; `inf`,
`infinity` or `nan` case-insensitively; or a decimal mantissa with at
least one digit and an optional exponent), converted to the nearest
binary64 with ties to even.  Returns the bit pattern, or `none` when the
string is not a valid float literal. -/
def rustParseF64 (s : String) : Option Nat :=
  let cs0 := s.toList
  let negcs : Bool × List Char :=
    match cs0 with
    | '+' :: t => (false, t)
    | '-' :: t => (true, t)
    | t => (false, t)
  let neg := negcs.1
  let cs := negcs.2
  let signBit := if neg then 2 ^ 63 else 0
  let lower := cs.map Char.toLower
  if lower = ['i', 'n', 'f'] ∨ lower = ['i', 'n', 'f', 'i', 'n', 'i', 't', 'y'] then
    some (signBit + F64_INF)
  else if lower = ['n', 'a', 'n'] then
    some (signBit + F64_QNAN)
  else
    let intSplit := cs.span Char.isDigit
    let fracSplit : List Char × List Char :=
      match intSplit.2 with
      | '.' :: t => t.span Char.isDigit
      | t => ([], t)
    let intDigits := intSplit.1
    let fracDigits := fracSplit.1
    if intDigits.length + fracDigits.length = 0 then none
    else
      let e10 : Option Int :=
        match fracSplit.2 with
        | [] => some 0
        | 'e' :: t => parseDecExponent t
        | 'E' :: t => parseDecExponent t
        | _ => none
      match e10 with
      | none => none
      | some ex =>
        let mantissa : Nat := digitsVal (intDigits ++ fracDigits)
        let exp : Int := ex - (fracDigits.length : Int)
        let mag : ℚ := (mantissa : ℚ) * (10 : ℚ) ^ exp
        some (f64BitsOfRat neg mag)

/-- Rust's saturating cast `f64 as u64` on bit patterns: NaN and negative
values give `0`, values at or above `2 ^ 64` (and `+inf`) give
`u64::MAX`, and finite values in range truncate toward zero. -/
def f64BitsToU64 (bits : Nat) : Nat :=
  let sign := bits / 2 ^ 63 % 2
  let e := bits / 2 ^ 52 % 2 ^ 11
  let m := bits % 2 ^ 52
  if e = 2047 then
    if m ≠ 0 then 0
    else if sign = 1 then 0
    else 2 ^ 64 - 1
  else if sign = 1 then 0
  else if e < 1023 then 0
  else
    let expVal := e - 1023
    if 64 ≤ expVal then 2 ^ 64 - 1
    else
      let sig := 2 ^ 52 + m
      if expVal ≤ 52 then sig / 2 ^ (52 - expVal) else sig * 2 ^ (expVal - 52)

/-! ## atoma-p2p metrics: Prometheus serving statistics -/

/-- Modelled from the spec: the constants module of `atoma-p2p` (holding
`PROMETHEUS_URL` and `QUERIES`) is not among the sources; the spec fixes a
set of eight named statistics, one independent query per statistic, whose
names appear verbatim in the match arms of `get_prometheus_metrics`.  The
query text itself never enters the embedded logic (the HTTP exchange is
modelled by its outcome), so each name is paired with itself. -/
def QUERIES : List (String × String) :=
  [("chat_latency", "chat_latency"),
   ("first_token_time", "first_token_time"),
   ("inter_token_time", "inter_token_time"),
   ("decoding_time", "decoding_time"),
   ("image_gen_latency", "image_gen_latency"),
   ("text_emb_latency", "text_emb_latency"),
   ("total_requests", "total_requests"),
   ("failed_requests", "failed_requests")]

/-- `query_metric` from `get_prometheus_metrics`: the HTTP GET (with its
5-second timeout) and JSON decoding are modelled by their outcome
`httpResult`; a transport failure propagates as `RequestError`, a
non-"success" status is a `PrometheusError`, and otherwise the first
result's value string is parsed as `f64`, defaulting to `0.0` when the
result list is empty or the string does not parse. -/
def query_metric (httpResult : Except ReqwestErr PrometheusResponse) :
    Except NodeMetricsError Nat :=
  match httpResult with
  | Except.error e => Except.error (NodeMetricsError.RequestError e)
  | Except.ok response =>
    if response.status ≠ "success" then
      Except.error (NodeMetricsError.PrometheusError
        ("Query failed with status: " ++ response.status))
    else
      Except.ok ((response.data.result.head?.bind
        (fun r => rustParseF64 r.value.2)).getD 0)

/-- One step of the result-assignment loop of `get_prometheus_metrics`:
a successful query writes its statistic's field (the two counters through
the saturating `as u64` cast), a failed query only logs a warning and
leaves the accumulator unchanged, as does an unmatched name. -/
def assignMetric (m : MetricsResponse) (name : String)
    (result : Except NodeMetricsError Nat) : MetricsResponse :=
  match name, result with
  | "chat_latency", Except.ok val => { m with chat_latency := val }
  | "first_token_time", Except.ok val => { m with first_token_time := val }
  | "inter_token_time", Except.ok val => { m with inter_token_time := val }
  | "decoding_time", Except.ok val => { m with decoding_time := val }
  | "image_gen_latency", Except.ok val => { m with image_gen_latency := val }
  | "text_emb_latency", Except.ok val => { m with text_emb_latency := val }
  | "total_requests", Except.ok val => { m with total_requests := f64BitsToU64 val }
  | "failed_requests", Except.ok val => { m with failed_requests := f64BitsToU64 val }
  | _, Except.error _ => m
  | _, Except.ok _ => m

/-- `get_prometheus_metrics`: runs one `query_metric` per entry of
`QUERIES` (concurrently in the source, joined before use), then folds the
outcomes into a `MetricsResponse` starting from the default; the function
itself always returns `Ok`. -/
def get_prometheus_metrics
    (httpResults : List (Except ReqwestErr PrometheusResponse)) :
    Except NodeMetricsError MetricsResponse :=
  let results := httpResults.map query_metric
  Except.ok ((QUERIES.zip results).foldl
    (fun m p => assignMetric m p.1.1 p.2) MetricsResponse.default)

/-! ## atoma-p2p metrics: system and GPU collection -/

/-- One CPU of the `sysinfo` snapshot (only its frequency is read). -/
structure Cpu where
  frequency : Nat
  deriving Repr, DecidableEq

/-- One network interface's counters of the `sysinfo` snapshot. -/
structure NetworkData where
  received : Nat
  transmitted : Nat
  deriving Repr, DecidableEq

/-- The refreshed `sysinfo::System` snapshot read by
`collect_system_metrics`, together with the `Networks` list the function
creates with `Networks::new_with_refreshed_list()`.  `global_cpu_usage`
is an `f32` bit pattern. -/
structure System where
  global_cpu_usage : Nat
  cpus : List Cpu
  used_memory : Nat
  total_memory : Nat
  used_swap : Nat
  total_swap : Nat
  networks : List (String × NetworkData)
  deriving Repr, DecidableEq

/-- `collect_system_metrics` from `atoma-p2p/src/metrics.rs`.  The average
CPU frequency is the `u64` quotient of the summed per-core frequencies by
the core count; with zero cores that division panics (`none`).  The
network counters are folded over all interfaces.  `num_cpus` is
`u32::try_from(len).unwrap_or(0)`. -/
def collect_system_metrics (sys : System) : Option NodeMetrics :=
  match rustDivU64 ((sys.cpus.map Cpu.frequency).foldl wrapAdd64 0)
      sys.cpus.length with
  | none => none
  | some cpu_frequency =>
    let rxtx := sys.networks.foldl
      (fun acc p => (wrapAdd64 acc.1 p.2.received, wrapAdd64 acc.2 p.2.transmitted))
      (0, 0)
    some
      { cpu_usage := sys.global_cpu_usage
        cpu_frequency := cpu_frequency
        ram_used := sys.used_memory
        ram_total := sys.total_memory
        ram_swap_used := sys.used_swap
        ram_swap_total := sys.total_swap
        num_cpus := if sys.cpus.length < 2 ^ 32 then sys.cpus.length else 0
        network_rx := rxtx.1
        network_tx := rxtx.2
        num_gpus := 0
        gpus := [] }

/-- `Utilization` from `nvml_wrapper`: GPU-execution and memory
(read/write) utilization percentages. -/
structure Utilization where
  gpu : Nat
  memory : Nat
  deriving Repr, DecidableEq

/-- `MemoryInfo` from `nvml_wrapper`. -/
structure MemoryInfo where
  used : Nat
  total : Nat
  free : Nat
  deriving Repr, DecidableEq

/-- One NVML device handle: each driver call is modelled by its outcome
(the source calls `temperature` with the GPU sensor and
`temperature_threshold` with the GpuMax threshold, so the arguments are
fixed). -/
structure Device where
  utilization_rates : Except NvmlErr Utilization
  memory_info : Except NvmlErr MemoryInfo
  temperature : Except NvmlErr Nat
  power_usage : Except NvmlErr Nat
  power_management_limit : Except NvmlErr Nat
  enforced_power_limit : Except NvmlErr Nat
  temperature_threshold : Except NvmlErr Nat
  total_energy_consumption : Except NvmlErr Nat
  deriving Repr

/-- An initialized NVML handle: the device count and per-index device
lookup, each modelled by its outcome. -/
structure Nvml where
  device_count : Except NvmlErr Nat
  device_by_index : Nat → Except NvmlErr Device

/-- The body of the `collect_gpu_metrics` loop for one device index: every
driver read is propagated with `?` (wrapped into
`NodeMetricsError::NvmlError`), in the evaluation order of the source's
struct literal; the serving-statistic fields start from
`GpuMetrics::default()`. -/
def collectGpuAt (nvml : Nvml) (i : Nat) : Except NodeMetricsError GpuMetrics := do
  let device ← (nvml.device_by_index i).mapError NodeMetricsError.NvmlError
  let util ← device.utilization_rates.mapError NodeMetricsError.NvmlError
  let mem ← device.memory_info.mapError NodeMetricsError.NvmlError
  let temp ← device.temperature.mapError NodeMetricsError.NvmlError
  let power ← device.power_usage.mapError NodeMetricsError.NvmlError
  let maxPower ← device.power_management_limit.mapError NodeMetricsError.NvmlError
  let defaultPower ← device.enforced_power_limit.mapError NodeMetricsError.NvmlError
  let maxTemp ← device.temperature_threshold.mapError NodeMetricsError.NvmlError
  let energy ← device.total_energy_consumption.mapError NodeMetricsError.NvmlError
  pure { GpuMetrics.default with
    memory_used := mem.used
    memory_total := mem.total
    memory_free := mem.free
    percentage_time_read_write := util.memory
    percentage_time_gpu_execution := util.gpu
    temperature := temp
    power_usage := power
    max_power_limit := maxPower
    default_power_limit := defaultPower
    max_temperature := maxTemp
    energy_consumption := energy }

/-- The `for i in 0..device_count` loop of `collect_gpu_metrics`: pushes
one entry per index, aborting the whole call on the first failed read. -/
def collectGpuLoop (nvml : Nvml) : List Nat → Except NodeMetricsError (List GpuMetrics)
  | [] => Except.ok []
  | i :: rest => do
    let g ← collectGpuAt nvml i
    let gs ← collectGpuLoop nvml rest
    pure (g :: gs)

/-- `collect_gpu_metrics` from `atoma-p2p/src/metrics.rs`. -/
def collect_gpu_metrics (nvml : Nvml) (device_count : Nat) :
    Except NodeMetricsError (List GpuMetrics) :=
  collectGpuLoop nvml (List.range device_count)

/-- The merge closure of `compute_usage_metrics`: writes the eight serving
statistics into one `GpuMetrics` entry, leaving the device fields as
read. -/
def mergePrometheusMetrics (metrics : MetricsResponse) (gpu : GpuMetrics) : GpuMetrics :=
  { gpu with
    chat_completion_latency := metrics.chat_latency
    time_to_first_token := metrics.first_token_time
    inter_token_generation_time := metrics.inter_token_time
    decoding_time := metrics.decoding_time
    image_generation_latency := metrics.image_gen_latency
    text_embeddings_latency := metrics.text_emb_latency
    total_requests := metrics.total_requests
    failed_requests := metrics.failed_requests }

/-- `compute_usage_metrics` from `atoma-p2p/src/metrics.rs`.  `Nvml::init`
is modelled by `nvmlInit`, and the Prometheus HTTP exchanges by
`httpResults` (the future is awaited after the synchronous sampling, and
its failure falls back to `MetricsResponse::default()`).  A `none` result
models the division-by-zero panic inside `collect_system_metrics`; the
`?` on `Nvml::init` and `device_count` fire before that point. -/
def compute_usage_metrics (sys : System) (nvmlInit : Except NvmlErr Nvml)
    (httpResults : List (Except ReqwestErr PrometheusResponse)) :
    Option (Except NodeMetricsError NodeMetrics) :=
  match nvmlInit with
  | Except.error e => some (Except.error (NodeMetricsError.NvmlError e))
  | Except.ok nvml =>
    match nvml.device_count with
    | Except.error e => some (Except.error (NodeMetricsError.NvmlError e))
    | Except.ok device_count =>
      match collect_system_metrics sys with
      | none => none
      | some system_metrics =>
        match collect_gpu_metrics nvml device_count with
        | Except.error e => some (Except.error e)
        | Except.ok gpu_metrics =>
          let metrics :=
            match get_prometheus_metrics httpResults with
            | Except.ok m => m
            | Except.error _ => MetricsResponse.default
          let gpus := gpu_metrics.map (mergePrometheusMetrics metrics)
          some (Except.ok
            { system_metrics with gpus := gpus, num_gpus := device_count })

/-! ## atoma-p2p types: canonical CBOR encoding (src/atoma-p2p/src/types.rs)

`serialize_with_hash` serializes a `NodeMessage` with `ciborium`, which is
serde's struct encoding into CBOR: a struct is a definite-length map from
field-name text strings to field values, in declaration order; a `Vec` is a
definite-length array; unsigned integers use the shortest CBOR head.
Modelled: `ciborium` additionally re-encodes a float in the smallest IEEE
width that preserves its value; the model always writes full-width floats.
That choice affects only which concrete bytes a float produces — both
encoders are functions of the value, so determinism and the hash relation
are unaffected. -/

/-- Big-endian bytes of `n`, exactly `k` bytes wide. -/
def beBytes : Nat → Nat → List Nat
  | 0, _ => []
  | k + 1, n => beBytes k (n / 256) ++ [n % 256]

/-- CBOR head for major type `major` with argument `n` (shortest form). -/
def cborHeader (major n : Nat) : List Nat :=
  if n < 24 then [32 * major + n]
  else if n < 256 then [32 * major + 24, n]
  else if n < 2 ^ 16 then (32 * major + 25) :: beBytes 2 n
  else if n < 2 ^ 32 then (32 * major + 26) :: beBytes 4 n
  else (32 * major + 27) :: beBytes 8 n

/-- CBOR unsigned integer (major type 0). -/
def cborUInt (n : Nat) : List Nat := cborHeader 0 n

/-- UTF-8 bytes of a string. -/
def utf8Bytes (s : String) : List Nat := s.toUTF8.toList.map UInt8.toNat

/-- CBOR text string (major type 3). -/
def cborText (s : String) : List Nat :=
  cborHeader 3 (utf8Bytes s).length ++ utf8Bytes s

/-- CBOR single-precision float from its bit pattern (`0xfa` head). -/
def cborF32Bits (bits : Nat) : List Nat := 0xfa :: beBytes 4 bits

/-- CBOR double-precision float from its bit pattern (`0xfb` head). -/
def cborF64Bits (bits : Nat) : List Nat := 0xfb :: beBytes 8 bits

/-- CBOR encoding of a `GpuMetrics` struct: a 19-entry map in field
declaration order. -/
def encodeGpuMetrics (g : GpuMetrics) : List Nat :=
  cborHeader 5 19
    ++ cborText "memory_used" ++ cborUInt g.memory_used
    ++ cborText "memory_total" ++ cborUInt g.memory_total
    ++ cborText "memory_free" ++ cborUInt g.memory_free
    ++ cborText "percentage_time_read_write" ++ cborUInt g.percentage_time_read_write
    ++ cborText "percentage_time_gpu_execution" ++ cborUInt g.percentage_time_gpu_execution
    ++ cborText "temperature" ++ cborUInt g.temperature
    ++ cborText "power_usage" ++ cborUInt g.power_usage
    ++ cborText "max_power_limit" ++ cborUInt g.max_power_limit
    ++ cborText "default_power_limit" ++ cborUInt g.default_power_limit
    ++ cborText "max_temperature" ++ cborUInt g.max_temperature
    ++ cborText "energy_consumption" ++ cborUInt g.energy_consumption
    ++ cborText "chat_completion_latency" ++ cborF64Bits g.chat_completion_latency
    ++ cborText "time_to_first_token" ++ cborF64Bits g.time_to_first_token
    ++ cborText "inter_token_generation_time" ++ cborF64Bits g.inter_token_generation_time
    ++ cborText "decoding_time" ++ cborF64Bits g.decoding_time
    ++ cborText "image_generation_latency" ++ cborF64Bits g.image_generation_latency
    ++ cborText "text_embeddings_latency" ++ cborF64Bits g.text_embeddings_latency
    ++ cborText "total_requests" ++ cborUInt g.total_requests
    ++ cborText "failed_requests" ++ cborUInt g.failed_requests

/-- CBOR encoding of a `NodeMetrics` struct: an 11-entry map in field
declaration order; `gpus` is an array of `GpuMetrics` maps. -/
def encodeNodeMetrics (m : NodeMetrics) : List Nat :=
  cborHeader 5 11
    ++ cborText "cpu_usage" ++ cborF32Bits m.cpu_usage
    ++ cborText "cpu_frequency" ++ cborUInt m.cpu_frequency
    ++ cborText "ram_used" ++ cborUInt m.ram_used
    ++ cborText "ram_total" ++ cborUInt m.ram_total
    ++ cborText "ram_swap_used" ++ cborUInt m.ram_swap_used
    ++ cborText "ram_swap_total" ++ cborUInt m.ram_swap_total
    ++ cborText "num_cpus" ++ cborUInt m.num_cpus
    ++ cborText "network_rx" ++ cborUInt m.network_rx
    ++ cborText "network_tx" ++ cborUInt m.network_tx
    ++ cborText "num_gpus" ++ cborUInt m.num_gpus
    ++ cborText "gpus" ++ cborHeader 4 m.gpus.length
    ++ (m.gpus.map encodeGpuMetrics).flatten

/-- `NodeP2pMetadata` from `atoma-p2p/src/types.rs`. -/
structure NodeP2pMetadata where
  node_public_url : String
  node_small_id : Nat
  country : String
  timestamp : Nat
  deriving Repr, DecidableEq

/-- `NodeMessage` from `atoma-p2p/src/types.rs`. -/
structure NodeMessage where
  node_metadata : NodeP2pMetadata
  node_metrics : NodeMetrics
  deriving Repr, DecidableEq

/-- CBOR encoding of a `NodeP2pMetadata` struct: a 4-entry map in field
declaration order. -/
def encodeNodeP2pMetadata (md : NodeP2pMetadata) : List Nat :=
  cborHeader 5 4
    ++ cborText "node_public_url" ++ cborText md.node_public_url
    ++ cborText "node_small_id" ++ cborUInt md.node_small_id
    ++ cborText "country" ++ cborText md.country
    ++ cborText "timestamp" ++ cborUInt md.timestamp

/-- `ciborium::into_writer` on a `NodeMessage`: a 2-entry map in field
declaration order. -/
def encodeNodeMessage (msg : NodeMessage) : List Nat :=
  cborHeader 5 2
    ++ cborText "node_metadata" ++ encodeNodeP2pMetadata msg.node_metadata
    ++ cborText "node_metrics" ++ encodeNodeMetrics msg.node_metrics

/-! ## blake3

A complete executable blake3 (32-byte digest) over byte lists, word-level
arithmetic on `Nat` modulo `2 ^ 32`, following the blake3 paper: chunks of
1024 bytes in 64-byte blocks, chaining through the compression function,
and the binary tree whose left subtree holds the largest power of two of
chunks strictly smaller than the total. -/

/-- 32-bit rotate right. -/
def rotr32 (x n : Nat) : Nat :=
  (x >>> n ||| x <<< (32 - n)) % 2 ^ 32

/-- 32-bit wrapping addition. -/
def add32 (a b : Nat) : Nat := (a + b) % 2 ^ 32

/-- The 16-word compression state. -/
structure B3State where
  v0 : Nat
  v1 : Nat
  v2 : Nat
  v3 : Nat
  v4 : Nat
  v5 : Nat
  v6 : Nat
  v7 : Nat
  v8 : Nat
  v9 : Nat
  v10 : Nat
  v11 : Nat
  v12 : Nat
  v13 : Nat
  v14 : Nat
  v15 : Nat
  deriving Repr, DecidableEq

/-- A 16-word message block. -/
structure B3Block where
  m0 : Nat
  m1 : Nat
  m2 : Nat
  m3 : Nat
  m4 : Nat
  m5 : Nat
  m6 : Nat
  m7 : Nat
  m8 : Nat
  m9 : Nat
  m10 : Nat
  m11 : Nat
  m12 : Nat
  m13 : Nat
  m14 : Nat
  m15 : Nat
  deriving Repr, DecidableEq

/-- An 8-word chaining value. -/
structure B3CV where
  h0 : Nat
  h1 : Nat
  h2 : Nat
  h3 : Nat
  h4 : Nat
  h5 : Nat
  h6 : Nat
  h7 : Nat
  deriving Repr, DecidableEq

/-- The blake3 initialization vector (the SHA-256 IV words). -/
def B3IV : B3CV :=
  ⟨0x6A09E667, 0xBB67AE85, 0x3C6EF372, 0xA54FF53A,
   0x510E527F, 0x9B05688C, 0x1F83D9AB, 0x5BE0CD19⟩

/-- The quarter-round mixing function `g`. -/
def gMix (a b c d mx my : Nat) : Nat × Nat × Nat × Nat :=
  let a := add32 (add32 a b) mx
  let d := rotr32 (d ^^^ a) 16
  let c := add32 c d
  let b := rotr32 (b ^^^ c) 12
  let a := add32 (add32 a b) my
  let d := rotr32 (d ^^^ a) 8
  let c := add32 c d
  let b := rotr32 (b ^^^ c) 7
  (a, b, c, d)

/-- One blake3 round: four column mixes then four diagonal mixes. -/
def b3Round (s : B3State) (m : B3Block) : B3State :=
  let (a0, b0, c0, d0) := gMix s.v0 s.v4 s.v8 s.v12 m.m0 m.m1
  let (a1, b1, c1, d1) := gMix s.v1 s.v5 s.v9 s.v13 m.m2 m.m3
  let (a2, b2, c2, d2) := gMix s.v2 s.v6 s.v10 s.v14 m.m4 m.m5
  let (a3, b3, c3, d3) := gMix s.v3 s.v7 s.v11 s.v15 m.m6 m.m7
  let (e0, f1, g2, h3) := gMix a0 b1 c2 d3 m.m8 m.m9
  let (e1, f2, g3, h0) := gMix a1 b2 c3 d0 m.m10 m.m11
  let (e2, f3, g0, h1) := gMix a2 b3 c0 d1 m.m12 m.m13
  let (e3, f0, g1, h2) := gMix a3 b0 c1 d2 m.m14 m.m15
  ⟨e0, e1, e2, e3, f0, f1, f2, f3, g0, g1, g2, g3, h0, h1, h2, h3⟩

/-- The blake3 message word permutation, applied between rounds. -/
def b3Permute (m : B3Block) : B3Block :=
  ⟨m.m2, m.m6, m.m3, m.m10, m.m7, m.m0, m.m4, m.m13,
   m.m1, m.m11, m.m12, m.m5, m.m9, m.m14, m.m15, m.m8⟩

/-- The blake3 compression function, truncated to the chaining value
(the first eight output words, `v[i] ^ v[i+8]`), which is also the
32-byte-digest output of the root compression. -/
def b3Compress (h : B3CV) (m : B3Block) (counter blockLen flags : Nat) : B3CV :=
  let s0 : B3State :=
    ⟨h.h0, h.h1, h.h2, h.h3, h.h4, h.h5, h.h6, h.h7,
     0x6A09E667, 0xBB67AE85, 0x3C6EF372, 0xA54FF53A,
     counter % 2 ^ 32, counter / 2 ^ 32 % 2 ^ 32, blockLen, flags⟩
  let s1 := b3Round s0 m
  let s2 := b3Round s1 (b3Permute m)
  let s3 := b3Round s2 (b3Permute (b3Permute m))
  let s4 := b3Round s3 (b3Permute (b3Permute (b3Permute m)))
  let s5 := b3Round s4 (b3Permute (b3Permute (b3Permute (b3Permute m))))
  let s6 := b3Round s5 (b3Permute (b3Permute (b3Permute (b3Permute (b3Permute m)))))
  let s7 := b3Round s6
    (b3Permute (b3Permute (b3Permute (b3Permute (b3Permute (b3Permute m))))))
  ⟨s7.v0 ^^^ s7.v8, s7.v1 ^^^ s7.v9, s7.v2 ^^^ s7.v10, s7.v3 ^^^ s7.v11,
   s7.v4 ^^^ s7.v12, s7.v5 ^^^ s7.v13, s7.v6 ^^^ s7.v14, s7.v7 ^^^ s7.v15⟩

/-- Split a list into consecutive pieces of `n` elements (`n > 0`; the
last piece may be shorter). -/
def chunksOf {α : Type} (n : Nat) (l : List α) : List (List α) :=
  if h : l.isEmpty ∨ n = 0 then []
  else l.take n :: chunksOf n (l.drop n)
termination_by l.length
decreasing_by
  simp only [not_or] at h
  have h1 : l ≠ [] := fun he => h.1 (by simp [he])
  have h2 : 0 < l.length := List.length_pos.mpr h1
  simp only [List.length_drop]
  omega

/-- Little-endian 32-bit word `i` of a byte list (zero-padded). -/
def leWord (bs : List Nat) (i : Nat) : Nat :=
  bs.getD (4 * i) 0 + 256 * bs.getD (4 * i + 1) 0
    + 65536 * bs.getD (4 * i + 2) 0 + 16777216 * bs.getD (4 * i + 3) 0

/-- A 64-byte block (zero-padded) as 16 little-endian words. -/
def b3BlockOfBytes (bs : List Nat) : B3Block :=
  ⟨leWord bs 0, leWord bs 1, leWord bs 2, leWord bs 3,
   leWord bs 4, leWord bs 5, leWord bs 6, leWord bs 7,
   leWord bs 8, leWord bs 9, leWord bs 10, leWord bs 11,
   leWord bs 12, leWord bs 13, leWord bs 14, leWord bs 15⟩

/-- The blocks of one chunk: 64-byte pieces, or a single empty block for
the empty chunk. -/
def b3ChunkBlocks (chunk : List Nat) : List (List Nat) :=
  if chunk.isEmpty then [[]] else chunksOf 64 chunk

/-- Fold the compression function over a chunk's blocks: CHUNK_START (1)
on the first block, CHUNK_END (2) — plus ROOT (8) for a root chunk — on
the last, block length as written. -/
def b3ChunkFold (chunkCounter : Nat) (rootFlag : Bool) (h : B3CV) (first : Bool) :
    List (List Nat) → B3CV
  | [] => h
  | [b] =>
      b3Compress h (b3BlockOfBytes b) chunkCounter b.length
        ((if first then 1 else 0) + 2 + (if rootFlag then 8 else 0))
  | b :: rest =>
      b3ChunkFold chunkCounter rootFlag
        (b3Compress h (b3BlockOfBytes b) chunkCounter b.length
          (if first then 1 else 0))
        false rest

/-- The chaining value of chunk number `chunkCounter`. -/
def b3ChunkCV (chunkCounter : Nat) (chunk : List Nat) (rootFlag : Bool) : B3CV :=
  b3ChunkFold chunkCounter rootFlag B3IV true (b3ChunkBlocks chunk)

/-- Two child chaining values as one 16-word parent block. -/
def b3CVWords (l r : B3CV) : B3Block :=
  ⟨l.h0, l.h1, l.h2, l.h3, l.h4, l.h5, l.h6, l.h7,
   r.h0, r.h1, r.h2, r.h3, r.h4, r.h5, r.h6, r.h7⟩

/-- A parent node: PARENT flag (4), counter 0, block length 64, plus ROOT
(8) at the root. -/
def b3ParentCV (l r : B3CV) (rootFlag : Bool) : B3CV :=
  b3Compress B3IV (b3CVWords l r) 0 64 (4 + if rootFlag then 8 else 0)

/-- Left-subtree size of a blake3 tree over `n ≥ 2` chunks: the largest
power of two that is at most `n - 1`. -/
def b3LeftLen (n : Nat) : Nat := 2 ^ Nat.log2 (n - 1)

/-- Combine chunk chaining values up the blake3 tree; `rootFlag` marks the
topmost parent. -/
def b3CombineCVs (cvs : List B3CV) (rootFlag : Bool) : B3CV :=
  if h : cvs.length ≤ 1 then cvs.headD B3IV
  else
    b3ParentCV (b3CombineCVs (cvs.take (b3LeftLen cvs.length)) false)
      (b3CombineCVs (cvs.drop (b3LeftLen cvs.length)) false) rootFlag
termination_by cvs.length
decreasing_by
  · have h2 : cvs.length - 1 ≠ 0 := by omega
    have hle : b3LeftLen cvs.length ≤ cvs.length - 1 := Nat.log2_self_le h2
    simp only [List.length_take]
    omega
  · have hpos : 0 < b3LeftLen cvs.length := Nat.two_pow_pos _
    simp only [List.length_drop]
    omega

/-- The chunks of an input: 1024-byte pieces, or one empty chunk for the
empty input. -/
def b3Chunks (bs : List Nat) : List (List Nat) :=
  if bs.isEmpty then [[]] else chunksOf 1024 bs

/-- The root chaining value: a single chunk carries ROOT itself, otherwise
the chunk chaining values are combined up the tree with ROOT on the final
parent. -/
def b3RootCV (chunks : List (List Nat)) : B3CV :=
  match chunks with
  | [c] => b3ChunkCV 0 c true
  | cs => b3CombineCVs (cs.mapIdx (fun i c => b3ChunkCV i c false)) true

/-- A chaining value as 32 little-endian bytes. -/
def cvBytes (h : B3CV) : List Nat :=
  [h.h0 % 256, h.h0 / 256 % 256, h.h0 / 65536 % 256, h.h0 / 16777216 % 256,
   h.h1 % 256, h.h1 / 256 % 256, h.h1 / 65536 % 256, h.h1 / 16777216 % 256,
   h.h2 % 256, h.h2 / 256 % 256, h.h2 / 65536 % 256, h.h2 / 16777216 % 256,
   h.h3 % 256, h.h3 / 256 % 256, h.h3 / 65536 % 256, h.h3 / 16777216 % 256,
   h.h4 % 256, h.h4 / 256 % 256, h.h4 / 65536 % 256, h.h4 / 16777216 % 256,
   h.h5 % 256, h.h5 / 256 % 256, h.h5 / 65536 % 256, h.h5 / 16777216 % 256,
   h.h6 % 256, h.h6 / 256 % 256, h.h6 / 65536 % 256, h.h6 / 16777216 % 256,
   h.h7 % 256, h.h7 / 256 % 256, h.h7 / 65536 % 256, h.h7 / 16777216 % 256]

/-- `blake3::hash`: the 32-byte blake3 digest of a byte list. -/
def blake3Hash (bs : List Nat) : List Nat :=
  cvBytes (b3RootCV (b3Chunks bs))

/-- Model of `AtomaP2pNodeError`: only the serialization variant is
reachable from `serialize_with_hash`. -/
inductive AtomaP2pNodeError where
  | UsageMetricsSerializeError
  deriving Repr, DecidableEq

/-- `SerializedMessage` from `atoma-p2p/src/types.rs`: the serialized
bytes and the blake3 hash (32 digest bytes) of those bytes. -/
structure SerializedMessage where
  message : List Nat
  hash : List Nat
  deriving Repr, DecidableEq

/-- `SerializeWithHash for NodeMessage` from `atoma-p2p/src/types.rs`:
serialize the message with `ciborium` into a fresh byte buffer and return
the buffer together with its `blake3::hash`.  Writing these struct types
into a growable buffer cannot fail, so the `Result` is always `Ok`. -/
def serialize_with_hash (msg : NodeMessage) :
    Except AtomaP2pNodeError SerializedMessage :=
  let bytes := encodeNodeMessage msg
  Except.ok { hash := blake3Hash bytes, message := bytes }

/-! ## Helper lemmas -/

/-- A blake3 digest always has 32 bytes. -/
theorem blake3Hash_length (bs : List Nat) : (blake3Hash bs).length = 32 := rfl

/-- `get_prometheus_metrics` returns `Ok` on every input. -/
theorem get_prometheus_metrics_ok (rs : List (Except ReqwestErr PrometheusResponse)) :
    ∃ m, get_prometheus_metrics rs = Except.ok m :=
  ⟨_, rfl⟩

/-- A failed query leaves the accumulator unchanged. -/
theorem assignMetric_error (m : MetricsResponse) (name : String) (e : NodeMetricsError) :
    assignMetric m name (Except.error e) = m := by
  unfold assignMetric
  split <;> first
    | rfl
    | (rename_i heq; exact absurd heq (by simp))

/-! ## Claim theorems -/

/-- A small concrete `NodeMessage` used by the witnesses. -/
def sampleMessage : NodeMessage :=
  { node_metadata :=
      { node_public_url := "https://1.2.3.4:8443"
        node_small_id := 42
        country := "US"
        timestamp := 1700000000 }
    node_metrics :=
      { cpu_usage := 0x42C80000
        cpu_frequency := 2400
        ram_used := 1024
        ram_total := 4096
        ram_swap_used := 0
        ram_swap_total := 2048
        num_cpus := 8
        network_rx := 1000
        network_tx := 2000
        num_gpus := 1
        gpus := [GpuMetrics.default] } }

/-- C1: canonical encoding is deterministic — two `serialize_with_hash`
calls on the same `NodeMessage` value that both succeed return
byte-identical serialized messages and equal blake3 hashes (the encoder
is a pure function of the value). -/
theorem serialize_with_hash_deterministic (m₁ m₂ : NodeMessage)
    (s₁ s₂ : SerializedMessage) (hm : m₁ = m₂)
    (h₁ : serialize_with_hash m₁ = Except.ok s₁)
    (h₂ : serialize_with_hash m₂ = Except.ok s₂) :
    s₁.message = s₂.message ∧ s₁.hash = s₂.hash := by
  subst hm
  rw [h₁] at h₂
  injection h₂ with h
  rw [h]
  exact ⟨rfl, rfl⟩

/-- C1 witness: the determinism theorem applied to a concrete message. -/
theorem serialize_with_hash_deterministic_witness :
    ∃ s₁ s₂ : SerializedMessage,
      serialize_with_hash sampleMessage = Except.ok s₁
      ∧ serialize_with_hash sampleMessage = Except.ok s₂
      ∧ (s₁.message = s₂.message ∧ s₁.hash = s₂.hash) :=
  ⟨_, _, rfl, rfl,
    serialize_with_hash_deterministic sampleMessage sampleMessage _ _ rfl rfl rfl⟩

/-- C6: for every `NodeMessage` on which `serialize_with_hash` succeeds,
the `hash` field of the returned `SerializedMessage` is the blake3 digest
(32 bytes) of exactly the bytes in the returned `message` field. -/
theorem serialize_with_hash_hashes_message (m : NodeMessage) (s : SerializedMessage)
    (h : serialize_with_hash m = Except.ok s) :
    s.hash = blake3Hash s.message ∧ s.hash.length = 32 := by
  injection h with h'
  rw [← h']
  exact ⟨rfl, blake3Hash_length _⟩

/-- C6 witness: the hash relation at a concrete message. -/
theorem serialize_with_hash_hashes_message_witness :
    ∃ s : SerializedMessage,
      serialize_with_hash sampleMessage = Except.ok s
      ∧ (s.hash = blake3Hash s.message ∧ s.hash.length = 32) :=
  ⟨_, rfl, serialize_with_hash_hashes_message sampleMessage _ rfl⟩

/-- C9: country-code validation accepts exactly the ISO 3166-1 alpha-2
codes; in particular `"US"` is accepted while `"USA"` (alpha-3) and
`"XX"` (unassigned) are rejected. -/
theorem validate_country_code_iso :
    (∀ c, validate_country_code c = Except.ok () ↔ c ∈ ISO_3166_1_ALPHA2)
    ∧ validate_country_code "US" = Except.ok ()
    ∧ validate_country_code "USA" = Except.error ⟨"Country code is invalid"⟩
    ∧ validate_country_code "XX" = Except.error ⟨"Country code is invalid"⟩ := by
  refine ⟨fun c => ?_, rfl, rfl, rfl⟩
  unfold validate_country_code
  by_cases h : ISO_3166_1_ALPHA2.contains c
  · rw [if_pos h]
    exact iff_of_true rfl (List.elem_iff.mp h)
  · rw [if_neg h]
    exact iff_of_false (by simp) (fun hmem => h (List.elem_iff.mpr hmem))

/-- C10: `build_query_with_in` on an empty values slice yields exactly the
base query followed by `" WHERE 1=0"`, ignoring the additional
conditions and binding nothing; on a non-empty slice it appends
`" WHERE column IN ($1, …, $n)"` with one bound placeholder per value (in
order), followed by `" AND "` plus the additional conditions when they
are provided. -/
theorem build_query_with_in_spec {α : Type} :
    (∀ (base_query column : String) (conds : Option String),
      (build_query_with_in (α := α) base_query column [] conds).sql
          = base_query ++ " WHERE 1=0"
        ∧ (build_query_with_in (α := α) base_query column [] conds).arguments = [])
    ∧ (∀ (base_query column : String) (v : α) (vs : List α),
      (build_query_with_in base_query column (v :: vs) none).sql
          = base_query ++ " WHERE " ++ column ++ " IN ("
              ++ placeholders 0 (v :: vs).length ++ ")"
        ∧ (build_query_with_in base_query column (v :: vs) none).arguments = v :: vs)
    ∧ (∀ (base_query column : String) (v : α) (vs : List α) (c : String),
      (build_query_with_in base_query column (v :: vs) (some c)).sql
          = base_query ++ " WHERE " ++ column ++ " IN ("
              ++ placeholders 0 (v :: vs).length ++ ")" ++ " AND " ++ c
        ∧ (build_query_with_in base_query column (v :: vs) (some c)).arguments
            = v :: vs) := by
  refine ⟨fun base_query column conds => ⟨rfl, rfl⟩, ?_, ?_⟩
  · intro base_query column v vs
    have h := sepPushBinds_false_spec (v :: vs)
      ({ sql := base_query ++ " WHERE " ++ column ++ " IN (", arguments := [] } :
        QueryBuilder α)
    have hs : (sepPushBinds ", "
        ({ sql := base_query ++ " WHERE " ++ column ++ " IN (", arguments := [] } :
          QueryBuilder α) false (v :: vs)).sql ++ ")"
        = base_query ++ " WHERE " ++ column ++ " IN ("
            ++ placeholders 0 (v :: vs).length ++ ")" := by
      rw [h.1]
      simp [String.append_assoc]
    have ha : (sepPushBinds ", "
        ({ sql := base_query ++ " WHERE " ++ column ++ " IN (", arguments := [] } :
          QueryBuilder α) false (v :: vs)).arguments = v :: vs := by
      simpa using h.2
    exact ⟨hs, ha⟩
  · intro base_query column v vs c
    have h := sepPushBinds_false_spec (v :: vs)
      ({ sql := base_query ++ " WHERE " ++ column ++ " IN (", arguments := [] } :
        QueryBuilder α)
    have hs : (sepPushBinds ", "
        ({ sql := base_query ++ " WHERE " ++ column ++ " IN (", arguments := [] } :
          QueryBuilder α) false (v :: vs)).sql ++ ")" ++ " AND " ++ c
        = base_query ++ " WHERE " ++ column ++ " IN ("
            ++ placeholders 0 (v :: vs).length ++ ")" ++ " AND " ++ c := by
      rw [h.1]
      simp [String.append_assoc]
    have ha : (sepPushBinds ", "
        ({ sql := base_query ++ " WHERE " ++ column ++ " IN (", arguments := [] } :
          QueryBuilder α) false (v :: vs)).arguments = v :: vs := by
      simpa using h.2
    exact ⟨hs, ha⟩

/-- Wrapping folds agree with the plain sum while the total stays below
`2 ^ 64`. -/
theorem foldl_wrapAdd64_eq_sum (l : List Nat) (a : Nat) (h : a + l.sum < 2 ^ 64) :
    l.foldl wrapAdd64 a = a + l.sum := by
  induction l generalizing a with
  | nil => simp
  | cons b t ih =>
      rw [List.foldl_cons, List.sum_cons]
      rw [List.sum_cons] at h
      have hab : wrapAdd64 a b = a + b := Nat.mod_eq_of_lt (by omega)
      rw [hab, ih (a + b) (by omega)]
      omega

/-- A `System` snapshot reporting zero CPU cores. -/
def zeroCoreSystem : System :=
  { global_cpu_usage := 0
    cpus := []
    used_memory := 0
    total_memory := 0
    used_swap := 0
    total_swap := 0
    networks := [] }

/-- A small working `System` snapshot used by the witnesses. -/
def sampleSystem : System :=
  { global_cpu_usage := 0x42C80000
    cpus := [⟨2400⟩, ⟨3000⟩]
    used_memory := 1024
    total_memory := 4096
    used_swap := 0
    total_swap := 2048
    networks := [("eth0", ⟨1000, 2000⟩)] }

/-- C2 counterexample: when the snapshot reports zero cores,
`collect_system_metrics` divides by zero — a Rust panic, modelled as
`none` — instead of returning zero for `cpu_frequency`. -/
theorem collect_system_metrics_zero_cores_panics :
    collect_system_metrics zeroCoreSystem = none := rfl

/-- C2 (amended): for a nonzero core count (with the frequency sum in
`u64` range) the reported `cpu_frequency` is the sum of per-core
frequencies divided by the core count with integer division; with zero
cores the function panics on division by zero rather than returning
zero. -/
theorem collect_system_metrics_cpu_frequency (sys : System)
    (hsum : (sys.cpus.map Cpu.frequency).sum < 2 ^ 64) :
    (sys.cpus = [] → collect_system_metrics sys = none)
    ∧ (sys.cpus ≠ [] → ∃ nm, collect_system_metrics sys = some nm
        ∧ nm.cpu_frequency
            = (sys.cpus.map Cpu.frequency).sum / sys.cpus.length) := by
  constructor
  · intro hnil
    simp [collect_system_metrics, hnil, rustDivU64]
  · intro hne
    have hlen : sys.cpus.length ≠ 0 := fun hl => hne (List.length_eq_zero.mp hl)
    have hfold : (sys.cpus.map Cpu.frequency).foldl wrapAdd64 0
        = (sys.cpus.map Cpu.frequency).sum := by
      have h0 := foldl_wrapAdd64_eq_sum (sys.cpus.map Cpu.frequency) 0 (by omega)
      omega
    have hcs : collect_system_metrics sys = some
        { cpu_usage := sys.global_cpu_usage
          cpu_frequency :=
            (sys.cpus.map Cpu.frequency).foldl wrapAdd64 0 / sys.cpus.length
          ram_used := sys.used_memory
          ram_total := sys.total_memory
          ram_swap_used := sys.used_swap
          ram_swap_total := sys.total_swap
          num_cpus := if sys.cpus.length < 2 ^ 32 then sys.cpus.length else 0
          network_rx := (sys.networks.foldl (fun acc p =>
            (wrapAdd64 acc.1 p.2.received, wrapAdd64 acc.2 p.2.transmitted)) (0, 0)).1
          network_tx := (sys.networks.foldl (fun acc p =>
            (wrapAdd64 acc.1 p.2.received, wrapAdd64 acc.2 p.2.transmitted)) (0, 0)).2
          num_gpus := 0
          gpus := [] } := by
      unfold collect_system_metrics rustDivU64
      rw [if_neg hlen]
    refine ⟨_, hcs, ?_⟩
    show (sys.cpus.map Cpu.frequency).foldl wrapAdd64 0 / sys.cpus.length
        = (sys.cpus.map Cpu.frequency).sum / sys.cpus.length
    rw [hfold]

/-- C2 witness: the amended statement at a concrete two-core snapshot. -/
theorem collect_system_metrics_cpu_frequency_witness :
    (sampleSystem.cpus.map Cpu.frequency).sum < 2 ^ 64
    ∧ ((sampleSystem.cpus = [] → collect_system_metrics sampleSystem = none)
      ∧ (sampleSystem.cpus ≠ [] →
          ∃ nm, collect_system_metrics sampleSystem = some nm
            ∧ nm.cpu_frequency
                = (sampleSystem.cpus.map Cpu.frequency).sum
                    / sampleSystem.cpus.length)) :=
  ⟨by decide, collect_system_metrics_cpu_frequency sampleSystem (by decide)⟩

/-- A successful `collectGpuLoop` yields one entry per device index. -/
theorem collectGpuLoop_length (nvml : Nvml) (is : List Nat) (gs : List GpuMetrics)
    (h : collectGpuLoop nvml is = Except.ok gs) : gs.length = is.length := by
  induction is generalizing gs with
  | nil =>
      simp only [collectGpuLoop] at h
      injection h with h
      subst h
      rfl
  | cons i rest ih =>
      simp only [collectGpuLoop, bind, Except.bind] at h
      cases hg : collectGpuAt nvml i with
      | error e => rw [hg] at h; exact absurd h (by simp)
      | ok g =>
          rw [hg] at h
          cases hr : collectGpuLoop nvml rest with
          | error e => rw [hr] at h; exact absurd h (by simp)
          | ok gs' =>
              rw [hr] at h
              simp only [pure, Except.pure] at h
              injection h with h
              subst h
              simp [ih gs' hr]

/-- C3: accelerator data is all-or-nothing — a failed `Nvml::init`, a
failed `device_count`, or any failed per-device read makes the whole
`compute_usage_metrics` call return that error (no partial record), and
a successful call certifies that device enumeration and every device
read succeeded (an `Ok` with zero GPUs can only arise from a zero device
count, never from a swallowed driver failure). -/
theorem compute_usage_metrics_accelerator_all_or_nothing (sys : System) (nvml : Nvml)
    (rs : List (Except ReqwestErr PrometheusResponse)) :
    (∀ e : NvmlErr, compute_usage_metrics sys (Except.error e) rs
        = some (Except.error (NodeMetricsError.NvmlError e)))
    ∧ (∀ e : NvmlErr, nvml.device_count = Except.error e →
        compute_usage_metrics sys (Except.ok nvml) rs
          = some (Except.error (NodeMetricsError.NvmlError e)))
    ∧ (∀ (n : Nat) (sm : NodeMetrics) (err : NodeMetricsError),
        nvml.device_count = Except.ok n →
        collect_system_metrics sys = some sm →
        collect_gpu_metrics nvml n = Except.error err →
        compute_usage_metrics sys (Except.ok nvml) rs = some (Except.error err))
    ∧ (∀ nm : NodeMetrics,
        compute_usage_metrics sys (Except.ok nvml) rs = some (Except.ok nm) →
        ∃ (n : Nat) (gs : List GpuMetrics),
          nvml.device_count = Except.ok n
            ∧ collect_gpu_metrics nvml n = Except.ok gs) := by
  refine ⟨fun e => rfl, fun e he => ?_, fun n sm err hc hs hg => ?_, fun nm h => ?_⟩
  · simp [compute_usage_metrics, he]
  · simp [compute_usage_metrics, hc, hs, hg]
  · cases hc : nvml.device_count with
    | error e => simp [compute_usage_metrics, hc] at h
    | ok n =>
        cases hs : collect_system_metrics sys with
        | none => simp [compute_usage_metrics, hc, hs] at h
        | some sm =>
            cases hg : collect_gpu_metrics nvml n with
            | error e => simp [compute_usage_metrics, hc, hs, hg] at h
            | ok gs => exact ⟨n, gs, rfl, hg⟩

/-- An NVML device whose utilization read fails. -/
def failingDevice : Device :=
  { utilization_rates := Except.error ⟨7⟩
    memory_info := Except.ok ⟨0, 0, 0⟩
    temperature := Except.ok 0
    power_usage := Except.ok 0
    power_management_limit := Except.ok 0
    enforced_power_limit := Except.ok 0
    temperature_threshold := Except.ok 0
    total_energy_consumption := Except.ok 0 }

/-- An NVML handle with one device that fails its reads. -/
def failingNvml : Nvml :=
  { device_count := Except.ok 1
    device_by_index := fun _ => Except.ok failingDevice }

/-- C3 witness: a failed init and a failed device read, each at concrete
inputs, both abort the call with the driver error. -/
theorem compute_usage_metrics_accelerator_all_or_nothing_witness :
    compute_usage_metrics sampleSystem (Except.error ⟨3⟩) []
        = some (Except.error (NodeMetricsError.NvmlError ⟨3⟩))
    ∧ compute_usage_metrics sampleSystem (Except.ok failingNvml) []
        = some (Except.error (NodeMetricsError.NvmlError ⟨7⟩)) :=
  ⟨(compute_usage_metrics_accelerator_all_or_nothing sampleSystem failingNvml []).1 ⟨3⟩,
   (compute_usage_metrics_accelerator_all_or_nothing sampleSystem failingNvml []).2.2.1
     1 _ (NodeMetricsError.NvmlError ⟨7⟩) rfl rfl rfl⟩

/-- An NVML device whose reads all succeed. -/
def workingDevice : Device :=
  { utilization_rates := Except.ok ⟨55, 40⟩
    memory_info := Except.ok ⟨2048, 8192, 6144⟩
    temperature := Except.ok 65
    power_usage := Except.ok 250000
    power_management_limit := Except.ok 300000
    enforced_power_limit := Except.ok 280000
    temperature_threshold := Except.ok 90
    total_energy_consumption := Except.ok 123456 }

/-- An NVML handle with two working devices. -/
def workingNvml : Nvml :=
  { device_count := Except.ok 2
    device_by_index := fun _ => Except.ok workingDevice }

/-- C5: every `NodeMetrics` successfully returned by
`compute_usage_metrics` has `num_gpus` equal to the length of its `gpus`
vector (one entry per device index below the device count). -/
theorem compute_usage_metrics_num_gpus (sys : System) (nvmlInit : Except NvmlErr Nvml)
    (rs : List (Except ReqwestErr PrometheusResponse)) (nm : NodeMetrics)
    (h : compute_usage_metrics sys nvmlInit rs = some (Except.ok nm)) :
    nm.num_gpus = nm.gpus.length := by
  cases nvmlInit with
  | error e => simp [compute_usage_metrics] at h
  | ok nvml =>
    cases hc : nvml.device_count with
    | error e => simp [compute_usage_metrics, hc] at h
    | ok n =>
      cases hs : collect_system_metrics sys with
      | none => simp [compute_usage_metrics, hc, hs] at h
      | some sm =>
        cases hg : collect_gpu_metrics nvml n with
        | error err => simp [compute_usage_metrics, hc, hs, hg] at h
        | ok gs =>
          simp only [compute_usage_metrics, hc, hs, hg, Option.some.injEq,
            Except.ok.injEq] at h
          have hlen : gs.length = (List.range n).length :=
            collectGpuLoop_length nvml (List.range n) gs hg
          subst h
          simpa using hlen.symm

/-- C5 witness: the invariant at a concrete two-device run. -/
theorem compute_usage_metrics_num_gpus_witness :
    ∃ nm, compute_usage_metrics sampleSystem (Except.ok workingNvml) []
        = some (Except.ok nm)
      ∧ nm.num_gpus = nm.gpus.length :=
  ⟨_, rfl,
    compute_usage_metrics_num_gpus sampleSystem (Except.ok workingNvml) [] _ rfl⟩

/-- Value delivered for one statistic: the fetched value on success, the
zero default on failure. -/
def okOrZero (r : Except NodeMetricsError Nat) : Nat :=
  match r with
  | Except.ok v => v
  | Except.error _ => 0

/-- Counter delivered for one statistic: the fetched value through the
saturating `as u64` cast on success, zero on failure. -/
def okOrZeroU64 (r : Except NodeMetricsError Nat) : Nat :=
  match r with
  | Except.ok v => f64BitsToU64 v
  | Except.error _ => 0

/-- Folding the assignment loop over failed results leaves the
accumulator untouched. -/
theorem foldl_assignMetric_errors
    (ps : List ((String × String) × Except NodeMetricsError Nat))
    (m : MetricsResponse) (hp : ∀ p ∈ ps, ∃ e, p.2 = Except.error e) :
    ps.foldl (fun m p => assignMetric m p.1.1 p.2) m = m := by
  induction ps generalizing m with
  | nil => rfl
  | cons p rest ih =>
      rw [List.foldl_cons]
      obtain ⟨e, he⟩ := hp p (List.mem_cons_self _ _)
      rw [he, assignMetric_error]
      exact ih m (fun q hq => hp q (List.mem_cons_of_mem _ hq))

/-- When every query fails, the collected serving metrics are the all-zero
default. -/
theorem get_prometheus_metrics_all_errors
    (rs : List (Except ReqwestErr PrometheusResponse))
    (hfail : ∀ r ∈ rs, ∃ e, query_metric r = Except.error e) :
    get_prometheus_metrics rs = Except.ok MetricsResponse.default := by
  simp only [get_prometheus_metrics]
  rw [foldl_assignMetric_errors]
  intro p hp
  have hmem : p.2 ∈ rs.map query_metric := (List.of_mem_zip hp).2
  obtain ⟨r, hr, hq⟩ := List.mem_map.mp hmem
  obtain ⟨e, he⟩ := hfail r hr
  exact ⟨e, by rw [← hq, he]⟩

/-- Eight symbolic query outcomes produce exactly the per-statistic
values, each independent of the others. -/
theorem get_prometheus_metrics_eight (r0 r1 r2 r3 r4 r5 r6 r7 :
    Except ReqwestErr PrometheusResponse) :
    get_prometheus_metrics [r0, r1, r2, r3, r4, r5, r6, r7]
      = Except.ok
          { chat_latency := okOrZero (query_metric r0)
            first_token_time := okOrZero (query_metric r1)
            inter_token_time := okOrZero (query_metric r2)
            decoding_time := okOrZero (query_metric r3)
            image_gen_latency := okOrZero (query_metric r4)
            text_emb_latency := okOrZero (query_metric r5)
            total_requests := okOrZeroU64 (query_metric r6)
            failed_requests := okOrZeroU64 (query_metric r7) } := by
  unfold get_prometheus_metrics QUERIES
  simp only [List.map_cons, List.map_nil, List.zip, List.zipWith, List.foldl]
  generalize query_metric r0 = x0
  generalize query_metric r1 = x1
  generalize query_metric r2 = x2
  generalize query_metric r3 = x3
  generalize query_metric r4 = x4
  generalize query_metric r5 = x5
  generalize query_metric r6 = x6
  generalize query_metric r7 = x7
  rcases x0 with e0 | v0 <;> rcases x1 with e1 | v1 <;> rcases x2 with e2 | v2 <;>
    rcases x3 with e3 | v3 <;> rcases x4 with e4 | v4 <;> rcases x5 with e5 | v5 <;>
    rcases x6 with e6 | v6 <;> rcases x7 with e7 | v7 <;> rfl

/-- C4: serving-metric query failures are independent and non-fatal — the
collection always returns `Ok`; for every combination of the eight query
outcomes each statistic independently carries its fetched value or the
zero default; when every query fails the result is the all-zero default;
and with sampling succeeded, `compute_usage_metrics` still succeeds with
all serving fields of every GPU entry zero. -/
theorem serving_metric_failures_nonfatal :
    (∀ rs, ∃ m, get_prometheus_metrics rs = Except.ok m)
    ∧ (∀ r0 r1 r2 r3 r4 r5 r6 r7 : Except ReqwestErr PrometheusResponse,
        get_prometheus_metrics [r0, r1, r2, r3, r4, r5, r6, r7]
          = Except.ok
              { chat_latency := okOrZero (query_metric r0)
                first_token_time := okOrZero (query_metric r1)
                inter_token_time := okOrZero (query_metric r2)
                decoding_time := okOrZero (query_metric r3)
                image_gen_latency := okOrZero (query_metric r4)
                text_emb_latency := okOrZero (query_metric r5)
                total_requests := okOrZeroU64 (query_metric r6)
                failed_requests := okOrZeroU64 (query_metric r7) })
    ∧ (∀ rs, (∀ r ∈ rs, ∃ e, query_metric r = Except.error e) →
        get_prometheus_metrics rs = Except.ok MetricsResponse.default)
    ∧ (∀ (sys : System) (nvml : Nvml) (n : Nat) (sm : NodeMetrics)
        (gs : List GpuMetrics) (rs : List (Except ReqwestErr PrometheusResponse)),
        nvml.device_count = Except.ok n →
        collect_system_metrics sys = some sm →
        collect_gpu_metrics nvml n = Except.ok gs →
        (∀ r ∈ rs, ∃ e, query_metric r = Except.error e) →
        ∃ nm, compute_usage_metrics sys (Except.ok nvml) rs = some (Except.ok nm)
          ∧ ∀ g ∈ nm.gpus,
              g.chat_completion_latency = 0 ∧ g.time_to_first_token = 0
              ∧ g.inter_token_generation_time = 0 ∧ g.decoding_time = 0
              ∧ g.image_generation_latency = 0 ∧ g.text_embeddings_latency = 0
              ∧ g.total_requests = 0 ∧ g.failed_requests = 0) := by
  refine ⟨fun rs => ⟨_, rfl⟩, get_prometheus_metrics_eight,
    get_prometheus_metrics_all_errors, ?_⟩
  intro sys nvml n sm gs rs hc hs hg hfail
  have hprom := get_prometheus_metrics_all_errors rs hfail
  refine ⟨{ sm with
      gpus := gs.map (mergePrometheusMetrics MetricsResponse.default)
      num_gpus := n }, ?_, ?_⟩
  · simp [compute_usage_metrics, hc, hs, hg, hprom]
  · intro g hgmem
    obtain ⟨g', hmem', hEq⟩ := List.mem_map.mp hgmem
    rw [← hEq]
    exact ⟨rfl, rfl, rfl, rfl, rfl, rfl, rfl, rfl⟩

/-- Eight failed HTTP exchanges (one per statistic query). -/
def failedQueryOutcomes : List (Except ReqwestErr PrometheusResponse) :=
  [Except.error ⟨1⟩, Except.error ⟨2⟩, Except.error ⟨3⟩, Except.error ⟨4⟩,
   Except.error ⟨5⟩, Except.error ⟨6⟩, Except.error ⟨7⟩, Except.error ⟨8⟩]

/-- C4 witness: all eight queries failing at concrete inputs — the
serving metrics collapse to the default and the cycle still succeeds. -/
theorem serving_metric_failures_nonfatal_witness :
    get_prometheus_metrics failedQueryOutcomes = Except.ok MetricsResponse.default
    ∧ ∃ nm, compute_usage_metrics sampleSystem (Except.ok workingNvml)
          failedQueryOutcomes = some (Except.ok nm)
        ∧ ∀ g ∈ nm.gpus,
            g.chat_completion_latency = 0 ∧ g.time_to_first_token = 0
            ∧ g.inter_token_generation_time = 0 ∧ g.decoding_time = 0
            ∧ g.image_generation_latency = 0 ∧ g.text_embeddings_latency = 0
            ∧ g.total_requests = 0 ∧ g.failed_requests = 0 := by
  have hfail : ∀ r ∈ failedQueryOutcomes, ∃ e, query_metric r = Except.error e := by
    intro r hr
    simp only [failedQueryOutcomes, List.mem_cons, List.not_mem_nil, or_false] at hr
    rcases hr with rfl | rfl | rfl | rfl | rfl | rfl | rfl | rfl <;> exact ⟨_, rfl⟩
  exact ⟨serving_metric_failures_nonfatal.2.2.1 failedQueryOutcomes hfail,
    serving_metric_failures_nonfatal.2.2.2 sampleSystem workingNvml 2 _ _
      failedQueryOutcomes rfl rfl rfl hfail⟩

/-- C7: serving statistic strings are parsed from decimal strings as
`f64`; the count statistics pass through the saturating `as u64` cast
when stored; and a value string that does not parse contributes the zero
default instead of an error. -/
theorem serving_statistic_numeric_semantics :
    (∀ (ts : Int) (s : String) (rest : List PrometheusResult),
      query_metric (Except.ok ⟨"success", ⟨⟨(ts, s)⟩ :: rest⟩⟩)
        = Except.ok ((rustParseF64 s).getD 0))
    ∧ (∀ (ts : Int) (s : String) (rest : List PrometheusResult),
      rustParseF64 s = none →
      query_metric (Except.ok ⟨"success", ⟨⟨(ts, s)⟩ :: rest⟩⟩) = Except.ok 0)
    ∧ (∀ (m : MetricsResponse) (v : Nat),
      (assignMetric m "total_requests" (Except.ok v)).total_requests
          = f64BitsToU64 v
      ∧ (assignMetric m "failed_requests" (Except.ok v)).failed_requests
          = f64BitsToU64 v) := by
  refine ⟨fun ts s rest => rfl, fun ts s rest hn => ?_, fun m v => ⟨rfl, rfl⟩⟩
  simp [query_metric, hn]

/-- C7 witness: a non-numeric value string parses to nothing and yields
the zero statistic. -/
theorem serving_statistic_numeric_semantics_witness :
    rustParseF64 "not a number" = none
    ∧ query_metric (Except.ok ⟨"success", ⟨[⟨(0, "not a number")⟩]⟩⟩)
        = Except.ok 0 :=
  ⟨rfl, serving_statistic_numeric_semantics.2.1 0 "not a number" [] rfl⟩

/-- C8: the merge step of `compute_usage_metrics` writes the same eight
serving-engine statistics into every GPU entry and leaves every other
field of each entry (memory, utilization, temperature, power, energy)
unchanged from the device reads. -/
theorem compute_usage_metrics_merge_frame :
    (∀ (metrics : MetricsResponse) (gpu : GpuMetrics),
      ((mergePrometheusMetrics metrics gpu).chat_completion_latency
          = metrics.chat_latency
        ∧ (mergePrometheusMetrics metrics gpu).time_to_first_token
            = metrics.first_token_time
        ∧ (mergePrometheusMetrics metrics gpu).inter_token_generation_time
            = metrics.inter_token_time
        ∧ (mergePrometheusMetrics metrics gpu).decoding_time
            = metrics.decoding_time
        ∧ (mergePrometheusMetrics metrics gpu).image_generation_latency
            = metrics.image_gen_latency
        ∧ (mergePrometheusMetrics metrics gpu).text_embeddings_latency
            = metrics.text_emb_latency
        ∧ (mergePrometheusMetrics metrics gpu).total_requests
            = metrics.total_requests
        ∧ (mergePrometheusMetrics metrics gpu).failed_requests
            = metrics.failed_requests)
      ∧ ((mergePrometheusMetrics metrics gpu).memory_used = gpu.memory_used
        ∧ (mergePrometheusMetrics metrics gpu).memory_total = gpu.memory_total
        ∧ (mergePrometheusMetrics metrics gpu).memory_free = gpu.memory_free
        ∧ (mergePrometheusMetrics metrics gpu).percentage_time_read_write
            = gpu.percentage_time_read_write
        ∧ (mergePrometheusMetrics metrics gpu).percentage_time_gpu_execution
            = gpu.percentage_time_gpu_execution
        ∧ (mergePrometheusMetrics metrics gpu).temperature = gpu.temperature
        ∧ (mergePrometheusMetrics metrics gpu).power_usage = gpu.power_usage
        ∧ (mergePrometheusMetrics metrics gpu).max_power_limit
            = gpu.max_power_limit
        ∧ (mergePrometheusMetrics metrics gpu).default_power_limit
            = gpu.default_power_limit
        ∧ (mergePrometheusMetrics metrics gpu).max_temperature
            = gpu.max_temperature
        ∧ (mergePrometheusMetrics metrics gpu).energy_consumption
            = gpu.energy_consumption))
    ∧ (∀ (sys : System) (nvml : Nvml) (n : Nat) (sm : NodeMetrics)
        (gs : List GpuMetrics) (rs : List (Except ReqwestErr PrometheusResponse))
        (nm : NodeMetrics) (m : MetricsResponse),
        nvml.device_count = Except.ok n →
        collect_system_metrics sys = some sm →
        collect_gpu_metrics nvml n = Except.ok gs →
        get_prometheus_metrics rs = Except.ok m →
        compute_usage_metrics sys (Except.ok nvml) rs = some (Except.ok nm) →
        nm.gpus.length = gs.length
        ∧ ∀ (i : Nat) (hi : i < nm.gpus.length) (hi2 : i < gs.length),
            nm.gpus[i] = mergePrometheusMetrics m gs[i]) := by
  constructor
  · intro metrics gpu
    exact ⟨⟨rfl, rfl, rfl, rfl, rfl, rfl, rfl, rfl⟩,
      rfl, rfl, rfl, rfl, rfl, rfl, rfl, rfl, rfl, rfl, rfl⟩
  · intro sys nvml n sm gs rs nm m hc hs hg hm h
    simp only [compute_usage_metrics, hc, hs, hg, hm, Option.some.injEq,
      Except.ok.injEq] at h
    subst h
    refine ⟨by simp, ?_⟩
    intro i hi hi2
    simp [List.getElem_map]

/-- C8 witness: the merge frame at a concrete two-device run. -/
theorem compute_usage_metrics_merge_frame_witness :
    ∃ (nm : NodeMetrics) (m : MetricsResponse) (gs : List GpuMetrics),
      compute_usage_metrics sampleSystem (Except.ok workingNvml) []
          = some (Except.ok nm)
      ∧ get_prometheus_metrics [] = Except.ok m
      ∧ collect_gpu_metrics workingNvml 2 = Except.ok gs
      ∧ (nm.gpus.length = gs.length
        ∧ ∀ (i : Nat) (hi : i < nm.gpus.length) (hi2 : i < gs.length),
            nm.gpus[i] = mergePrometheusMetrics m gs[i]) :=
  ⟨_, _, _, rfl, rfl, rfl,
    compute_usage_metrics_merge_frame.2 sampleSystem workingNvml 2 _ _ [] _ _
      rfl rfl rfl rfl rfl⟩
